import Mathlib

set_option autoImplicit false

/-
Verification development for the FoT clinical-trials evidence-claim core.

The development shallowly embeds three parts of the code base:
  * the claim-collapse gate of clinical_app.py (toolchain_agreement and the
    Phase III confirmatory flow that sets a claim's collapsed flag),
  * the seven-track data-readiness validator of
    core/clinical/data_readiness_checker.py,
  * the hypothesis-state engine of core/clinical/quantum_clinical_engine.py
    (encoding, virtue scoring, evolution).

Python floats are modelled as rationals where the code only compares and adds
fixed decimal constants (the collapse gate and the validator scores), and as
real numbers where the code uses sqrt/exp/log (the quantum engine).  Python
dicts are modelled as association lists; the injectable random sources (phase
draws, perturbation matrices) are explicit function parameters.
-/

namespace FoTClinical

/-! ## Claim-collapse protocol (clinical_app.py) -/

/-- Measurement record of a FoT claim (clinical_app.py, dataclass Measurement). -/
structure Measurement where
  hasMetric : String
  value : ℚ
  unit : String
  uncertainty : ℚ
deriving DecidableEq

/-- Collapse policy of a claim (clinical_app.py, dataclass CollapsePolicy). -/
structure CollapsePolicy where
  replications : ℤ
  alphaSpent : Option ℚ
  minCompleteness : ℚ
  agreementDeltaMax : Option ℚ
deriving DecidableEq

/-- Evidence record of a claim (clinical_app.py, dataclass Evidence). -/
structure Evidence where
  used : List String
  usedEntity : List String
  wasGeneratedBy : Option String
deriving DecidableEq

/-- A Field-of-Truth claim (clinical_app.py, dataclass FoTClaim). -/
structure FoTClaim where
  id : String
  addressesProblem : String
  measurements : List Measurement
  collapse : CollapsePolicy
  evidence : Evidence
  collapsed : Bool
  verdict : Option String
  reason : Option String
deriving DecidableEq

/-- Agreement check between two toolchains (clinical_app.py,
`toolchain_agreement`): a `None` tolerance always agrees, otherwise the
observed delta must be within the tolerance in absolute value. -/
def toolchain_agreement (delta_observed : ℚ) (delta_max : Option ℚ) : Bool :=
  match delta_max with
  | none => true
  | some dm => decide (|delta_observed| ≤ dm)

/-- The collapse gate applied to a claim once an agreement delta has been
computed (clinical_app.py, Phase III tab:
`if toolchain_agreement(agree, claim.collapse.agreementDeltaMax): claim.collapsed = True`). -/
def apply_collapse_gate (agree : ℚ) (c : FoTClaim) : FoTClaim :=
  if toolchain_agreement agree c.collapse.agreementDeltaMax then
    { c with collapsed := true }
  else
    c

/-- The confirmatory claim emitted in the Phase III tab of clinical_app.py,
with the agreement tolerance of its collapse policy as a parameter. -/
def confirmatory_claim (est_A est_B tol : ℚ) : FoTClaim :=
  { id := "claim"
    addressesProblem := "fcl:PrimaryConfirmatory_HbA1c"
    measurements :=
      [ ⟨"fcl:EstimateA", est_A, "percent", 0⟩
      , ⟨"fcl:EstimateB", est_B, "percent", 0⟩
      , ⟨"fcl:AgreementDelta", |est_A - est_B|, "delta", 0⟩ ]
    collapse := ⟨2, some 0.025, 0.95, some tol⟩
    evidence := ⟨["tool:AnalysisA", "tool:AnalysisB"], ["dataset:locked-db"], some "now"⟩
    collapsed := false
    verdict := none
    reason := none }

/-- C1: the claim-collapse gate collapses a claim exactly when toolchain
agreement holds: a `None` tolerance always agrees, otherwise agreement holds
iff `|delta_observed| ≤ delta_max`; for estimates -0.72 and -0.74 (observed
delta 0.02) the gate collapses the claim under tolerance 0.05 and leaves it
uncollapsed under tolerance 0.01. -/
theorem c1_collapse_gate_agreement :
    (∀ d : ℚ, toolchain_agreement d none = true) ∧
    (∀ d m : ℚ, toolchain_agreement d (some m) = true ↔ |d| ≤ m) ∧
    (apply_collapse_gate |(-0.72 : ℚ) - (-0.74)|
      (confirmatory_claim (-0.72) (-0.74) 0.05)).collapsed = true ∧
    (apply_collapse_gate |(-0.72 : ℚ) - (-0.74)|
      (confirmatory_claim (-0.72) (-0.74) 0.01)).collapsed = false := by
  have habs : |(-0.72 : ℚ) - (-0.74)| = 0.02 := by
    rw [show (-0.72 : ℚ) - (-0.74) = 0.02 by norm_num]
    exact abs_of_nonneg (by norm_num)
  refine ⟨fun d => rfl, fun d m => ?_, ?_, ?_⟩
  · simp [toolchain_agreement]
  · have hta : toolchain_agreement 0.02 (some 0.05) = true := by
      simp only [toolchain_agreement, decide_eq_true_eq]
      rw [abs_of_nonneg (by norm_num : (0 : ℚ) ≤ 0.02)]
      norm_num
    rw [habs]
    simp [apply_collapse_gate, confirmatory_claim, hta]
  · have hta : toolchain_agreement 0.02 (some 0.01) = false := by
      simp only [toolchain_agreement, decide_eq_false_iff_not, not_le]
      rw [abs_of_nonneg (by norm_num : (0 : ℚ) ≤ 0.02)]
      norm_num
    rw [habs]
    simp [apply_collapse_gate, confirmatory_claim, hta]

/-- C10: the collapse gate is idempotent and never un-collapses a claim. -/
theorem c10_collapse_gate_idempotent (agree : ℚ) (c : FoTClaim) :
    apply_collapse_gate agree (apply_collapse_gate agree c) =
      apply_collapse_gate agree c ∧
    (c.collapsed = true → (apply_collapse_gate agree c).collapsed = true) := by
  constructor
  · by_cases h : toolchain_agreement agree c.collapse.agreementDeltaMax
    · simp [apply_collapse_gate, h]
    · simp [apply_collapse_gate, h]
  · intro hc
    by_cases h : toolchain_agreement agree c.collapse.agreementDeltaMax
    · simp [apply_collapse_gate, h]
    · simp [apply_collapse_gate, h, hc]

/-- An already-collapsed claim used to witness the no-un-collapse property. -/
def precollapsed_claim : FoTClaim :=
  { confirmatory_claim (-0.72) (-0.74) 0.01 with collapsed := true }

/-- Witness for C10: the gate keeps a concrete already-collapsed claim
collapsed, here under a tolerance (0.01) that the observed delta violates. -/
theorem c10_collapse_gate_idempotent_witness :
    precollapsed_claim.collapsed = true ∧
    (apply_collapse_gate 0.02 precollapsed_claim).collapsed = true :=
  ⟨rfl, (c10_collapse_gate_idempotent 0.02 precollapsed_claim).2 rfl⟩

/-! ## Data-readiness validator (core/clinical/data_readiness_checker.py) -/

/-- The seven clinical validation tracks (enum ValidationTrack). -/
inductive ValidationTrack
  | MEDICATION_SAFETY
  | TRIAGE_ASSESSMENT
  | NEXT_DIAGNOSTIC_STEP
  | IMAGING_READINESS
  | AUDIO_READINESS
  | LABORATORY_ANALYSIS
  | VITAL_SIGNS_MONITORING
deriving DecidableEq

open ValidationTrack

/-- The `.value` string of each ValidationTrack enum member. -/
def track_value : ValidationTrack → String
  | MEDICATION_SAFETY => "MedicationSafety"
  | TRIAGE_ASSESSMENT => "TriageAssessment"
  | NEXT_DIAGNOSTIC_STEP => "NextDiagnosticStep"
  | IMAGING_READINESS => "ImagingReadiness"
  | AUDIO_READINESS => "AudioReadiness"
  | LABORATORY_ANALYSIS => "LaboratoryAnalysis"
  | VITAL_SIGNS_MONITORING => "VitalSignsMonitoring"

/-- Validation result types (enum ValidationResult). -/
inductive ValidationResult
  | READY
  | NEAR_MISS
  | NOT_READY
deriving DecidableEq

open ValidationResult

/-- A gap in clinical data (dataclass DataGap); `example_value` defaults to
`None` in the source. -/
structure DataGap where
  field : String
  reason : String
  example_value : Option String
  severity : String
deriving DecidableEq

/-- Result of validating one track (dataclass TrackValidationResult). -/
structure TrackValidationResult where
  track : ValidationTrack
  result : ValidationResult
  actual_score : ℚ
  gaps : List DataGap
  warnings : List String
  recommendations : List String
deriving DecidableEq

/-- One entry of the medication list.  The source stores dicts with keys
name/dose/frequency and treats a missing or empty value as falsy; only name
and dose are inspected, and a missing key is modelled as the empty string. -/
structure MedicationEntry where
  name : String
  dose : String
deriving DecidableEq

/-- A clinical case record, the input dict of the validator and of the quantum
encoder, with the dynamically-typed dict fields modelled as typed association
lists (`Option` marks a missing key). -/
structure ClinicalData where
  case_id : String
  chief_complaint : String
  age : ℚ
  medications : List MedicationEntry
  allergies : List String
  vital_signs : List (String × ℚ)
  symptoms : List (String × Option ℚ)
  previous_tests : List String
  diagnostic_plan : List String
  laboratory : List (String × ℚ)
  test_timing : List (String × String)
  imaging_study : List (String × String)
  patient_preparation : List (String × String)
  audio_study : List (String × String)
  patient_positioning : List (String × String)
  environment : List (String × String)
  vital_trends : List (String × String)
  monitoring_frequency : String
deriving DecidableEq

/-- The empty clinical record: every dict/list field empty, every string
empty, age absent (`data.get('age', 0)` yields 0). -/
def empty_clinical_data : ClinicalData :=
  ⟨"", "", 0, [], [], [], [], [], [], [], [], [], [], [], [], [], [], ""⟩

/-- Python substring containment `sub in s` (for non-empty `sub`). -/
def strContains (s sub : String) : Bool :=
  (s.splitOn sub).length != 1

/-- `d.get(key, default)` on a numeric dict. -/
def lookupQ (m : List (String × ℚ)) (k : String) (dflt : ℚ) : ℚ :=
  (m.lookup k).getD dflt

/-- `d.get(key, '')` on a string dict. -/
def lookupS (m : List (String × String)) (k : String) : String :=
  (m.lookup k).getD ""

/-- True when the dict has the key (`key in d` / `key not in d`). -/
def hasKeyQ (m : List (String × ℚ)) (k : String) : Bool :=
  (m.lookup k).isSome

/-- The `minimum_scores` table set in `ClinicalDataContractValidator.__init__`. -/
def minimum_scores : ValidationTrack → ℚ
  | MEDICATION_SAFETY => 0.7
  | TRIAGE_ASSESSMENT => 0.6
  | NEXT_DIAGNOSTIC_STEP => 0.8
  | IMAGING_READINESS => 0.9
  | AUDIO_READINESS => 0.9
  | LABORATORY_ANALYSIS => 0.8
  | VITAL_SIGNS_MONITORING => 0.7

/-- The final-score computation shared by every track:
`if gaps: score = max(0.0, score - len(gaps) * 0.1)`. -/
def apply_gap_penalty (score : ℚ) (gaps : List DataGap) : ℚ :=
  if gaps = [] then score else max 0 (score - gaps.length * 0.1)

/-- The result-threshold computation shared by every track:
READY at the track minimum, NEAR_MISS at 80% of it, else NOT_READY. -/
def determine_result (score min_score : ℚ) : ValidationResult :=
  if score ≥ min_score then READY
  else if score ≥ min_score * 0.8 then NEAR_MISS
  else NOT_READY

/-- Assembles a TrackValidationResult from the raw (pre-penalty) score and the
gap/warning/recommendation lists, applying the shared score and threshold
steps; each `_validate_*` function of the source ends with exactly this code. -/
def mk_track_result (t : ValidationTrack) (base : ℚ) (gaps : List DataGap)
    (warns recs : List String) : TrackValidationResult :=
  let score := apply_gap_penalty base gaps
  ⟨t, determine_result score (minimum_scores t), score, gaps, warns, recs⟩

/-- Required vital signs checked by the triage and vital-signs tracks. -/
def required_vitals : List String :=
  ["systolic_bp", "diastolic_bp", "heart_rate", "respiratory_rate", "temperature_c"]

/-- Per-medication format gaps (`_validate_medication_safety`, inner loop). -/
def med_entry_gaps (p : ℕ × MedicationEntry) : List DataGap :=
  (if p.2.name = "" then
    [⟨"medications[" ++ toString p.1 ++ "].name", "Medication name missing",
      some "Aspirin", "medium"⟩]
   else []) ++
  (if p.2.dose = "" then
    [⟨"medications[" ++ toString p.1 ++ "].dose", "Medication dose missing",
      some "81mg", "medium"⟩]
   else [])

/-- The `common_interactions` drug table of `_validate_medication_safety`. -/
def common_interactions : List (String × List String) :=
  [("warfarin", ["aspirin", "ibuprofen"]),
   ("digoxin", ["furosemide"]),
   ("metformin", ["contrast_dye"])]

/-- Interaction messages of `_validate_medication_safety`: for every (ordered)
medication name found in the interaction table, every interacting drug that
occurs as a substring of some allergy yields one message built by `fmt`. -/
def interaction_msgs (meds : List MedicationEntry) (allergies : List String)
    (fmt : String → String → String) : List String :=
  if meds ≠ [] ∧ allergies ≠ [] then
    (meds.map (fun m => m.name.toLower)).flatMap (fun med =>
      match common_interactions.lookup med with
      | some ints =>
          (ints.filter (fun it =>
            allergies.any (fun a => strContains a.toLower it))).map (fmt med)
      | none => [])
  else []

/-- MedicationSafety track (`_validate_medication_safety`). -/
def validate_medication_safety (d : ClinicalData) : TrackValidationResult :=
  let medGaps : List DataGap :=
    if d.medications = [] then
      [⟨"medications", "No medication list provided",
        some "\x7bname: Aspirin, dose: 81mg, frequency: daily\x7d", "high"⟩]
    else d.medications.enum.flatMap med_entry_gaps
  let medScore : ℚ := if d.medications = [] then 0 else 0.3
  let allergyGaps : List DataGap :=
    if d.allergies = [] then
      [⟨"allergies", "No allergy information provided",
        some "[Penicillin, Shellfish]", "high"⟩]
    else []
  let allergyScore : ℚ := if d.allergies = [] then 0 else 0.2
  let interWarns := interaction_msgs d.medications d.allergies
    (fun med it => "Potential interaction: " ++ med ++ " with " ++ it)
  let interRecs := interaction_msgs d.medications d.allergies
    (fun med it => "Review " ++ med ++ " dosing with " ++ it ++ " allergy")
  let warfarinElderly : Bool :=
    d.age > 65 && d.medications.any (fun m => strContains m.name.toLower "warfarin")
  let warns := interWarns ++
    (if warfarinElderly then ["Elderly patient on warfarin - monitor INR closely"] else [])
  let recs := interRecs ++
    (if warfarinElderly then ["Consider dose adjustment based on INR"] else [])
  mk_track_result MEDICATION_SAFETY (medScore + allergyScore)
    (medGaps ++ allergyGaps) warns recs

/-- Warnings for abnormal vital-sign values (shared check pattern of the
triage and vital-signs tracks; `recBP` etc. select the per-track
recommendation). -/
def abnormal_vital_msgs (vs : List (String × ℚ))
    (recBP recHR recRR recT : String) : List String × List String :=
  if vs = [] then ([], []) else
    let sys := lookupQ vs "systolic_bp" 0
    let hr := lookupQ vs "heart_rate" 0
    let rr := lookupQ vs "respiratory_rate" 0
    let temp := lookupQ vs "temperature_c" 0
    let bpW := if sys > 180 ∨ sys < 90 then
      (["Abnormal blood pressure: " ++ toString sys], [recBP]) else ([], [])
    let hrW := if hr > 120 ∨ hr < 50 then
      (["Abnormal heart rate: " ++ toString hr], [recHR]) else ([], [])
    let rrW := if rr > 24 ∨ rr < 12 then
      (["Abnormal respiratory rate: " ++ toString rr], [recRR]) else ([], [])
    let tW := if temp > 38.5 ∨ temp < 36.0 then
      (["Abnormal temperature: " ++ toString temp ++ "°C"], [recT]) else ([], [])
    (bpW.1 ++ hrW.1 ++ rrW.1 ++ tW.1, bpW.2 ++ hrW.2 ++ rrW.2 ++ tW.2)

/-- Gaps for the required vitals that are absent from the dict. -/
def missing_vital_gaps (vs : List (String × ℚ)) : List DataGap :=
  (required_vitals.filter (fun v => !hasKeyQ vs v)).map (fun v =>
    ⟨"vital_signs." ++ v, "Missing vital sign: " ++ v,
     some (if v = "temperature_c" then "37.0" else "120"), "high"⟩)

/-- TriageAssessment track (`_validate_triage_assessment`).  The loop adding
0.1 per present required vital is modelled as 0.1 times the count. -/
def validate_triage_assessment (d : ClinicalData) : TrackValidationResult :=
  let ccGaps : List DataGap :=
    if d.chief_complaint = "" then
      [⟨"chief_complaint", "No chief complaint provided", some "chest pain", "critical"⟩]
    else []
  let ccScore : ℚ := if d.chief_complaint = "" then 0 else 0.3
  let vitalGaps := missing_vital_gaps d.vital_signs
  let vitalScore : ℚ :=
    ((required_vitals.filter (fun v => hasKeyQ d.vital_signs v)).length : ℚ) * 0.1
  let symGaps : List DataGap :=
    if d.symptoms = [] then
      [⟨"symptoms", "No symptom information provided",
        some "\x7bchest_pain: intensity 0.8, quality crushing\x7d", "high"⟩]
    else []
  let symScore : ℚ := if d.symptoms = [] then 0 else 0.2
  let wr := abnormal_vital_msgs d.vital_signs
    "Monitor blood pressure closely" "Consider cardiac monitoring"
    "Monitor respiratory status" "Monitor for infection or hypothermia"
  mk_track_result TRIAGE_ASSESSMENT (ccScore + vitalScore + symScore)
    (ccGaps ++ vitalGaps ++ symGaps) wr.1 wr.2

/-- NextDiagnosticStep track (`_validate_next_diagnostic_step`). -/
def validate_next_diagnostic_step (d : ClinicalData) : TrackValidationResult :=
  let prevGaps : List DataGap :=
    if d.previous_tests = [] then
      [⟨"previous_tests", "No previous diagnostic tests documented",
        some "[EKG, Chest X-ray, Troponin]", "medium"⟩]
    else []
  let prevScore : ℚ := if d.previous_tests = [] then 0 else 0.2
  let planGaps : List DataGap :=
    if d.diagnostic_plan = [] then
      [⟨"diagnostic_plan", "No diagnostic plan provided",
        some "[EKG, Chest X-ray, Troponin, Echocardiogram]", "high"⟩]
    else []
  let planScore : ℚ := if d.diagnostic_plan = [] then 0 else 0.3
  let contrastAllergy :=
    (d.allergies.map String.toLower).contains "contrast_dye" &&
      d.diagnostic_plan.any (fun t =>
        strContains t "CT" || strContains t.toLower "angiography")
  let creat := lookupQ d.laboratory "creatinine" 0
  let contrastRenal :=
    creat > 1.5 && d.diagnostic_plan.any (fun t => strContains t.toLower "contrast")
  let chestNoTrop :=
    strContains d.chief_complaint.toLower "chest pain" &&
      !(d.diagnostic_plan.any (fun t => strContains t.toLower "troponin"))
  let warns :=
    (if contrastAllergy then
      ["Patient allergic to contrast dye - CT with contrast contraindicated"] else []) ++
    (if contrastRenal then
      ["Elevated creatinine - contrast administration risky"] else []) ++
    (if chestNoTrop then
      ["Chest pain without troponin - consider cardiac workup"] else [])
  let recs :=
    (if contrastAllergy then
      ["Consider non-contrast CT or alternative imaging"] else []) ++
    (if contrastRenal then
      ["Consider alternative imaging or pre-hydration"] else []) ++
    (if chestNoTrop then ["Add troponin to diagnostic plan"] else [])
  mk_track_result NEXT_DIAGNOSTIC_STEP (prevScore + planScore)
    (prevGaps ++ planGaps) warns recs

/-- ImagingReadiness track (`_validate_imaging_readiness`). -/
def validate_imaging_readiness (d : ClinicalData) : TrackValidationResult :=
  let studyGaps : List DataGap :=
    if d.imaging_study = [] then
      [⟨"imaging_study", "No imaging study information provided",
        some "\x7bmodality: CT, bodySite: chest, contrast: yes\x7d", "high"⟩]
    else
      (["modality", "bodySite", "contrast"].filter
        (fun f => (d.imaging_study.lookup f).isNone)).map (fun f =>
          ⟨"imaging_study." ++ f, "Missing imaging field: " ++ f,
           some (if f = "modality" then "CT" else if f = "bodySite" then "chest" else "yes"),
           "high"⟩)
  let studyScore : ℚ := if d.imaging_study = [] then 0 else 0.4
  let prepGaps : List DataGap :=
    if d.patient_preparation = [] then
      [⟨"patient_preparation", "No patient preparation information",
        some "\x7bnpo: 4 hours, medications: hold metformin\x7d", "medium"⟩]
    else []
  let prepScore : ℚ := if d.patient_preparation = [] then 0 else 0.2
  let contrastYes := (lookupS d.imaging_study "contrast").toLower = "yes"
  let contrastAllergy :=
    (d.allergies.map String.toLower).contains "contrast_dye" && contrastYes
  let creat := lookupQ d.laboratory "creatinine" 0
  let contrastRenal := creat > 1.5 && contrastYes
  let warns :=
    (if contrastAllergy then ["Contrast allergy - imaging contraindicated"] else []) ++
    (if contrastRenal then ["Elevated creatinine - contrast risky"] else [])
  let recs :=
    (if contrastAllergy then
      ["Consider non-contrast imaging or pre-medication"] else []) ++
    (if contrastRenal then
      ["Consider alternative imaging or pre-hydration"] else [])
  mk_track_result IMAGING_READINESS (studyScore + prepScore)
    (studyGaps ++ prepGaps) warns recs

/-- AudioReadiness track (`_validate_audio_readiness`). -/
def validate_audio_readiness (d : ClinicalData) : TrackValidationResult :=
  let studyGaps : List DataGap :=
    if d.audio_study = [] then
      [⟨"audio_study", "No audio study information provided",
        some "\x7bmodality: heart_sounds, duration: 30s, quality: good\x7d", "high"⟩]
    else
      (["modality", "duration", "quality"].filter
        (fun f => (d.audio_study.lookup f).isNone)).map (fun f =>
          ⟨"audio_study." ++ f, "Missing audio field: " ++ f,
           some (if f = "modality" then "heart_sounds"
                 else if f = "duration" then "30s" else "good"),
           "high"⟩)
  let studyScore : ℚ := if d.audio_study = [] then 0 else 0.4
  let posGaps : List DataGap :=
    if d.patient_positioning = [] then
      [⟨"patient_positioning", "No patient positioning information",
        some "\x7bposition: supine, quiet_room: yes\x7d", "medium"⟩]
    else []
  let posScore : ℚ := if d.patient_positioning = [] then 0 else 0.2
  let envGaps : List DataGap :=
    if d.environment = [] then
      [⟨"environment", "No environmental information",
        some "\x7bnoise_level: low, temperature: comfortable\x7d", "low"⟩]
    else []
  let envScore : ℚ := if d.environment = [] then 0 else 0.1
  let poorQuality := (lookupS d.audio_study "quality").toLower = "poor"
  let warns := if poorQuality then ["Poor audio quality may affect analysis"] else []
  let recs :=
    if poorQuality then ["Re-record with better positioning and environment"] else []
  mk_track_result AUDIO_READINESS (studyScore + posScore + envScore)
    (studyGaps ++ posGaps ++ envGaps) warns recs

/-- The `critical_values` ranges of `_validate_laboratory_analysis`. -/
def critical_values : List (String × ℚ × ℚ) :=
  [("glucose", 50, 400), ("creatinine", 0.5, 3.0), ("troponin", 0.0, 0.04),
   ("potassium", 3.0, 6.0), ("sodium", 130, 150)]

/-- Critical-lab messages: every tested value present and out of range yields
one message built by `fmt`. -/
def critical_lab_msgs (lab : List (String × ℚ))
    (fmt : String × ℚ × ℚ → String) : List String :=
  (critical_values.filter (fun c =>
    match lab.lookup c.1 with
    | some v => decide (v < c.2.1 ∨ v > c.2.2)
    | none => false)).map fmt

/-- LaboratoryAnalysis track (`_validate_laboratory_analysis`). -/
def validate_laboratory_analysis (d : ClinicalData) : TrackValidationResult :=
  let labGaps : List DataGap :=
    if d.laboratory = [] then
      [⟨"laboratory", "No laboratory results provided",
        some "\x7bglucose: 120, creatinine: 1.0, troponin: 0.01\x7d", "high"⟩]
    else []
  let labScore : ℚ := if d.laboratory = [] then 0 else 0.4
  let critWarns :=
    if d.laboratory = [] then [] else
      critical_lab_msgs d.laboratory (fun c =>
        "Critical " ++ c.1 ++ ": " ++ toString (lookupQ d.laboratory c.1 0) ++
          " (normal: " ++ toString c.2.1 ++ "-" ++ toString c.2.2 ++ ")")
  let critRecs :=
    if d.laboratory = [] then [] else
      critical_lab_msgs d.laboratory (fun c => "Monitor " ++ c.1 ++ " closely")
  let timingGaps : List DataGap :=
    if d.test_timing = [] then
      [⟨"test_timing", "No test timing information",
        some "\x7bcollection_time: 2024-01-15T10:30:00Z, fasting: yes\x7d", "medium"⟩]
    else []
  let timingScore : ℚ := if d.test_timing = [] then 0 else 0.2
  let chestNoTrop :=
    strContains d.chief_complaint.toLower "chest pain" && !hasKeyQ d.laboratory "troponin"
  let warns := critWarns ++
    (if chestNoTrop then
      ["Chest pain without troponin - consider cardiac workup"] else [])
  let recs := critRecs ++
    (if chestNoTrop then ["Add troponin to laboratory panel"] else [])
  mk_track_result LABORATORY_ANALYSIS (labScore + timingScore)
    (labGaps ++ timingGaps) warns recs

/-- VitalSignsMonitoring track (`_validate_vital_signs_monitoring`). -/
def validate_vital_signs_monitoring (d : ClinicalData) : TrackValidationResult :=
  let vsGaps : List DataGap :=
    if d.vital_signs = [] then
      [⟨"vital_signs", "No vital signs provided",
        some "\x7bsystolic_bp: 120, diastolic_bp: 80, heart_rate: 70\x7d", "critical"⟩]
    else missing_vital_gaps d.vital_signs
  let vsScore : ℚ := if d.vital_signs = [] then 0 else 0.5
  let trendGaps : List DataGap :=
    if d.vital_trends = [] then
      [⟨"vital_trends", "No vital signs trends provided",
        some "\x7bsystolic_bp_trend: stable, heart_rate_trend: increasing\x7d", "medium"⟩]
    else []
  let trendScore : ℚ := if d.vital_trends = [] then 0 else 0.2
  let freqGaps : List DataGap :=
    if d.monitoring_frequency = "" then
      [⟨"monitoring_frequency", "No monitoring frequency specified",
        some "every 15 minutes", "medium"⟩]
    else []
  let freqScore : ℚ := if d.monitoring_frequency = "" then 0 else 0.1
  let wr := abnormal_vital_msgs d.vital_signs
    "Increase monitoring frequency" "Consider continuous cardiac monitoring"
    "Monitor respiratory status closely" "Monitor for infection or hypothermia"
  mk_track_result VITAL_SIGNS_MONITORING (vsScore + trendScore + freqScore)
    (vsGaps ++ trendGaps ++ freqGaps) wr.1 wr.2

/-- Track dispatch (`_validate_track`). -/
def validate_track (d : ClinicalData) : ValidationTrack → TrackValidationResult
  | MEDICATION_SAFETY => validate_medication_safety d
  | TRIAGE_ASSESSMENT => validate_triage_assessment d
  | NEXT_DIAGNOSTIC_STEP => validate_next_diagnostic_step d
  | IMAGING_READINESS => validate_imaging_readiness d
  | AUDIO_READINESS => validate_audio_readiness d
  | LABORATORY_ANALYSIS => validate_laboratory_analysis d
  | VITAL_SIGNS_MONITORING => validate_vital_signs_monitoring d

/-- `self.validation_tracks = list(ValidationTrack)`, in enum order. -/
def track_list : List ValidationTrack :=
  [MEDICATION_SAFETY, TRIAGE_ASSESSMENT, NEXT_DIAGNOSTIC_STEP, IMAGING_READINESS,
   AUDIO_READINESS, LABORATORY_ANALYSIS, VITAL_SIGNS_MONITORING]

/-- The error verdict built by `validate_case` when validating one track
raises an exception with message `msg`. -/
def error_track_result (t : ValidationTrack) (msg : String) : TrackValidationResult :=
  ⟨t, NOT_READY, 0,
   [⟨"validation_error", msg, none, "critical"⟩],
   ["Validation error: " ++ msg],
   ["Fix validation error and retry"]⟩

/-- The per-track try/except loop of `validate_case`, abstracted over the
outcome of validating each track: a raised exception (`Except.error`) becomes
the error verdict, every other track still contributes its own verdict. -/
def validate_case_with
    (f : ValidationTrack → Except String TrackValidationResult) :
    List TrackValidationResult :=
  track_list.map (fun t =>
    match f t with
    | .ok r => r
    | .error e => error_track_result t e)

/-- Validation of one track as a fallible computation.  In this typed
embedding the record is well-formed, so `_validate_track` always succeeds;
the exception path of `validate_case` is exercised through
`validate_case_with` applied to arbitrary fallible validators. -/
def validate_track_checked (d : ClinicalData) (t : ValidationTrack) :
    Except String TrackValidationResult :=
  .ok (validate_track d t)

/-- `validate_case`: one verdict per track. -/
def validate_case (d : ClinicalData) : List TrackValidationResult :=
  validate_case_with (validate_track_checked d)

/-- Overall readiness summary (`generate_readiness_summary`); the
`generated_at` timestamp and the flat recommendation list are carried by the
host and omitted here. -/
structure ReadinessSummary where
  overall_status : String
  overall_score : ℚ
  ready_tracks : List String
  near_miss_tracks : List String
  not_ready_tracks : List String
deriving DecidableEq

/-- `generate_readiness_summary`: partitions track names by status, averages
the scores, and is FULLY_READY only when every track is READY. -/
def generate_readiness_summary (rs : List TrackValidationResult) : ReadinessSummary :=
  let ready := (rs.filter (fun r => r.result = READY)).map (fun r => track_value r.track)
  let nearMiss :=
    (rs.filter (fun r => r.result = NEAR_MISS)).map (fun r => track_value r.track)
  let notReady :=
    (rs.filter (fun r => r.result = NOT_READY)).map (fun r => track_value r.track)
  let status :=
    if ready.length = rs.length then "FULLY_READY"
    else if ready.length > 0 then "PARTIALLY_READY"
    else "NOT_READY"
  ⟨status, (rs.map (fun r => r.actual_score)).sum / rs.length, ready, nearMiss, notReady⟩

/-! ### Validator lemmas and claims C4, C5, C8 -/

theorem apply_gap_penalty_nonneg (s : ℚ) (g : List DataGap) (h : 0 ≤ s) :
    0 ≤ apply_gap_penalty s g := by
  unfold apply_gap_penalty
  split
  · exact h
  · exact le_max_left 0 _

theorem apply_gap_penalty_le (s B : ℚ) (g : List DataGap) (h : s ≤ B) (hB : 0 ≤ B) :
    apply_gap_penalty s g ≤ B := by
  unfold apply_gap_penalty
  split
  · exact h
  · refine max_le hB ?_
    have : (0 : ℚ) ≤ (g.length : ℚ) * 0.1 := by positivity
    linarith

theorem determine_result_eq_ready (s m : ℚ) :
    determine_result s m = READY ↔ m ≤ s := by
  unfold determine_result
  split_ifs with h1 h2 <;> simp_all [ge_iff_le]

theorem determine_result_eq_near_miss (s m : ℚ) :
    determine_result s m = NEAR_MISS ↔ m * 0.8 ≤ s ∧ s < m := by
  unfold determine_result
  split_ifs with h1 h2
  · simp only [reduceCtorEq, false_iff, not_and, not_lt]
    intro _
    exact h1
  · simp only [true_iff]
    exact ⟨by linarith [ge_iff_le.mp h2], lt_of_not_ge h1⟩
  · simp only [reduceCtorEq, false_iff, not_and, not_lt]
    intro h
    exact absurd (by linarith : s ≥ m * 0.8) h2

theorem determine_result_eq_not_ready (s m : ℚ) (hm : 0 ≤ m) :
    determine_result s m = NOT_READY ↔ s < m * 0.8 := by
  unfold determine_result
  split_ifs with h1 h2
  · simp only [reduceCtorEq, false_iff, not_lt]
    have : m * 0.8 ≤ m := by linarith
    linarith [ge_iff_le.mp h1]
  · simp only [reduceCtorEq, false_iff, not_lt]
    exact ge_iff_le.mp h2
  · simp only [true_iff]
    exact lt_of_not_ge h2

theorem mk_track_result_actual_score (t : ValidationTrack) (base : ℚ)
    (gaps : List DataGap) (w r : List String) :
    (mk_track_result t base gaps w r).actual_score = apply_gap_penalty base gaps := rfl

theorem mk_track_result_result (t : ValidationTrack) (base : ℚ)
    (gaps : List DataGap) (w r : List String) :
    (mk_track_result t base gaps w r).result =
      determine_result (apply_gap_penalty base gaps) (minimum_scores t) := rfl

theorem minimum_scores_pos (t : ValidationTrack) : 0 < minimum_scores t := by
  cases t <;> norm_num [minimum_scores]

/-- The C4 property for a track result assembled from a raw score in [0,1]. -/
theorem track_spec_of_base (t : ValidationTrack) (base : ℚ) (gaps : List DataGap)
    (w r : List String) (h0 : 0 ≤ base) (h1 : base ≤ 1) :
    0 ≤ (mk_track_result t base gaps w r).actual_score ∧
    (mk_track_result t base gaps w r).actual_score ≤ 1 ∧
    ((mk_track_result t base gaps w r).result = READY ↔
      minimum_scores t ≤ (mk_track_result t base gaps w r).actual_score) ∧
    ((mk_track_result t base gaps w r).result = NEAR_MISS ↔
      minimum_scores t * 0.8 ≤ (mk_track_result t base gaps w r).actual_score ∧
        (mk_track_result t base gaps w r).actual_score < minimum_scores t) ∧
    ((mk_track_result t base gaps w r).result = NOT_READY ↔
      (mk_track_result t base gaps w r).actual_score < minimum_scores t * 0.8) := by
  rw [mk_track_result_actual_score, mk_track_result_result]
  exact ⟨apply_gap_penalty_nonneg base gaps h0,
    apply_gap_penalty_le base 1 gaps h1 (by norm_num),
    determine_result_eq_ready _ _,
    determine_result_eq_near_miss _ _,
    determine_result_eq_not_ready _ _ (le_of_lt (minimum_scores_pos t))⟩

/-- C4: for every input record and every validation track, the returned score
lies in [0,1], and the status is determined by the track minimum: READY iff
score ≥ min, NEAR_MISS iff 0.8·min ≤ score < min, NOT_READY iff
score < 0.8·min. -/
theorem c4_track_score_and_status (d : ClinicalData) (t : ValidationTrack) :
    0 ≤ (validate_track d t).actual_score ∧
    (validate_track d t).actual_score ≤ 1 ∧
    ((validate_track d t).result = READY ↔
      minimum_scores t ≤ (validate_track d t).actual_score) ∧
    ((validate_track d t).result = NEAR_MISS ↔
      minimum_scores t * 0.8 ≤ (validate_track d t).actual_score ∧
        (validate_track d t).actual_score < minimum_scores t) ∧
    ((validate_track d t).result = NOT_READY ↔
      (validate_track d t).actual_score < minimum_scores t * 0.8) := by
  cases t
  case MEDICATION_SAFETY =>
    simp only [validate_track, validate_medication_safety]
    exact track_spec_of_base _ _ _ _ _
      (by split_ifs <;> norm_num) (by split_ifs <;> norm_num)
  case TRIAGE_ASSESSMENT =>
    simp only [validate_track, validate_triage_assessment]
    have hcnt : ((required_vitals.filter
        (fun v => hasKeyQ d.vital_signs v)).length : ℚ) ≤ 5 := by
      have h := List.length_filter_le (fun v => hasKeyQ d.vital_signs v) required_vitals
      have h5 : required_vitals.length = 5 := rfl
      rw [h5] at h
      exact_mod_cast h
    have hcnt0 : (0 : ℚ) ≤
        ((required_vitals.filter (fun v => hasKeyQ d.vital_signs v)).length : ℚ) := by
      positivity
    exact track_spec_of_base _ _ _ _ _
      (by split_ifs <;> nlinarith) (by split_ifs <;> nlinarith)
  case NEXT_DIAGNOSTIC_STEP =>
    simp only [validate_track, validate_next_diagnostic_step]
    exact track_spec_of_base _ _ _ _ _
      (by split_ifs <;> norm_num) (by split_ifs <;> norm_num)
  case IMAGING_READINESS =>
    simp only [validate_track, validate_imaging_readiness]
    exact track_spec_of_base _ _ _ _ _
      (by split_ifs <;> norm_num) (by split_ifs <;> norm_num)
  case AUDIO_READINESS =>
    simp only [validate_track, validate_audio_readiness]
    exact track_spec_of_base _ _ _ _ _
      (by split_ifs <;> norm_num) (by split_ifs <;> norm_num)
  case LABORATORY_ANALYSIS =>
    simp only [validate_track, validate_laboratory_analysis]
    exact track_spec_of_base _ _ _ _ _
      (by split_ifs <;> norm_num) (by split_ifs <;> norm_num)
  case VITAL_SIGNS_MONITORING =>
    simp only [validate_track, validate_vital_signs_monitoring]
    exact track_spec_of_base _ _ _ _ _
      (by split_ifs <;> norm_num) (by split_ifs <;> norm_num)

theorem apply_gap_penalty_zero (g : List DataGap) : apply_gap_penalty 0 g = 0 := by
  unfold apply_gap_penalty
  split
  · rfl
  · have h1 : (0 : ℚ) ≤ (g.length : ℚ) * 0.1 := by positivity
    exact max_eq_left (by linarith)

theorem mk_track_result_zero_not_ready (t : ValidationTrack) (base : ℚ)
    (gaps : List DataGap) (w r : List String) (hbase : base = 0) :
    (mk_track_result t base gaps w r).result = NOT_READY := by
  rw [mk_track_result_result, hbase, apply_gap_penalty_zero,
    determine_result_eq_not_ready _ _ (le_of_lt (minimum_scores_pos t))]
  exact mul_pos (minimum_scores_pos t) (by norm_num)

theorem validate_track_track (d : ClinicalData) (t : ValidationTrack) :
    (validate_track d t).track = t := by
  cases t <;> rfl

theorem mem_track_list (t : ValidationTrack) : t ∈ track_list := by
  cases t <;> simp [track_list]

/-- C5: `validate_case` returns exactly one verdict per track (seven in all)
and isolates per-track exceptions: for any fallible per-track validator, a
track whose validation fails contributes the NOT_READY error verdict with
score 0 and a critical gap carrying the exception message, while every track
that succeeds still contributes its own verdict. -/
theorem c5_validate_case_error_isolation :
    (∀ d : ClinicalData,
      (validate_case d).length = 7 ∧
      (validate_case d).map (fun r => r.track) = track_list) ∧
    (∀ (f : ValidationTrack → Except String TrackValidationResult)
        (t : ValidationTrack) (r : TrackValidationResult),
      f t = .ok r → r ∈ validate_case_with f) ∧
    (∀ (f : ValidationTrack → Except String TrackValidationResult)
        (t : ValidationTrack) (e : String),
      f t = .error e →
        error_track_result t e ∈ validate_case_with f ∧
        (error_track_result t e).result = NOT_READY ∧
        (error_track_result t e).actual_score = 0 ∧
        ∃ g ∈ (error_track_result t e).gaps,
          g.reason = e ∧ g.severity = "critical") := by
  refine ⟨fun d => ⟨rfl, ?_⟩, fun f t r h => ?_, fun f t e h => ?_⟩
  · simp [validate_case, validate_case_with, validate_track_checked, track_list,
      validate_track_track]
  · exact List.mem_map.mpr ⟨t, mem_track_list t, by simp [h]⟩
  · refine ⟨List.mem_map.mpr ⟨t, mem_track_list t, by simp [h]⟩, rfl, rfl, ?_⟩
    exact ⟨⟨"validation_error", e, none, "critical"⟩, by simp [error_track_result], rfl, rfl⟩

/-- A validator that raises on the medication-safety track and succeeds on
every other track, used to witness the exception isolation of C5. -/
def raising_validator : ValidationTrack → Except String TrackValidationResult :=
  fun t =>
    if t = MEDICATION_SAFETY then .error "boom"
    else .ok (validate_track empty_clinical_data t)

/-- Witness for C5: with a concrete validator that raises on one track, the
error verdict for that track appears in the output and a succeeding track's
verdict is still present. -/
theorem c5_validate_case_error_isolation_witness :
    raising_validator MEDICATION_SAFETY = Except.error "boom" ∧
    raising_validator TRIAGE_ASSESSMENT =
      Except.ok (validate_track empty_clinical_data TRIAGE_ASSESSMENT) ∧
    error_track_result MEDICATION_SAFETY "boom" ∈ validate_case_with raising_validator ∧
    validate_track empty_clinical_data TRIAGE_ASSESSMENT ∈
      validate_case_with raising_validator := by
  have h1 : raising_validator MEDICATION_SAFETY = Except.error "boom" := rfl
  have h2 : raising_validator TRIAGE_ASSESSMENT =
      Except.ok (validate_track empty_clinical_data TRIAGE_ASSESSMENT) := rfl
  exact ⟨h1, h2,
    (c5_validate_case_error_isolation.2.2 raising_validator MEDICATION_SAFETY "boom" h1).1,
    c5_validate_case_error_isolation.2.1 raising_validator TRIAGE_ASSESSMENT _ h2⟩

theorem medication_safety_score_le (d : ClinicalData) :
    (validate_medication_safety d).actual_score ≤ 0.5 := by
  simp only [validate_medication_safety, mk_track_result_actual_score]
  exact apply_gap_penalty_le _ _ _ (by split_ifs <;> norm_num) (by norm_num)

theorem medication_safety_not_ready (d : ClinicalData) :
    (validate_medication_safety d).result = NOT_READY := by
  have hs := medication_safety_score_le d
  have h : (validate_medication_safety d).result =
      determine_result (validate_medication_safety d).actual_score
        (minimum_scores MEDICATION_SAFETY) := rfl
  rw [h, determine_result_eq_not_ready _ _ (by norm_num [minimum_scores])]
  norm_num [minimum_scores]
  linarith

/-- C8: the MedicationSafety track can score at most 0.5 (0.3 for medications
plus 0.2 for allergies), below its NEAR_MISS floor 0.8·0.7 = 0.56, so its
verdict is always NOT_READY and the summary of `validate_case` is never
FULLY_READY. -/
theorem c8_medication_blocks_fully_ready (d : ClinicalData) :
    (validate_medication_safety d).actual_score ≤ 0.5 ∧
    (validate_medication_safety d).result = NOT_READY ∧
    (generate_readiness_summary (validate_case d)).overall_status ≠ "FULLY_READY" := by
  refine ⟨medication_safety_score_le d, medication_safety_not_ready d, ?_⟩
  have hmem : validate_medication_safety d ∈ validate_case d := by
    simp [validate_case, validate_case_with, validate_track_checked, track_list,
      validate_track]
  have hlt : ((validate_case d).filter
      (fun r => r.result = READY)).length < (validate_case d).length := by
    rw [List.length_filter_lt_length_iff_exists]
    refine ⟨validate_medication_safety d, hmem, ?_⟩
    simp [medication_safety_not_ready d]
  simp only [generate_readiness_summary, List.length_map]
  rw [if_neg (by omega)]
  split_ifs <;> simp

/-! ## Quantum clinical engine (core/clinical/quantum_clinical_engine.py)

The state vector is a function `ℕ → ℂ` read on `Finset.range dim`; the
`np.random` draws (phases and perturbation matrices) are injectable
parameters, per the concurrency/resource model of the spec. -/

noncomputable section

/-- Quantum superposition states (enum QuantumClinicalState). -/
inductive QuantumClinicalState
  | SUPERPOSED
  | COLLAPSED
  | ENTANGLED
  | MEASURED
deriving DecidableEq

open QuantumClinicalState

/-- Clinical context read by the virtue supervisors
(`clinical_context.get('conservative_bias', 0.0)` and
`clinical_context.get('harm_indicators', [])`). -/
structure ClinicalContext where
  conservative_bias : ℝ
  harm_indicators : List String

/-- A clinical case as quantum system (dataclass QuantumClinicalCase). -/
structure QuantumClinicalCase where
  case_id : String
  vqbit_dimension : ℕ
  quantum_state_vector : ℕ → ℂ
  symptom_qbits : List (String × ℂ)
  sign_qbits : List (String × ℂ)
  differential_qbits : List (String × ℂ)
  entanglement_matrix : ℕ → ℕ → ℂ
  decoherence_rate : ℝ

/-- Quantum-aware clinical claim (dataclass vQbitClinicalClaim); the sha256
`toolchain_hash` and the wall-clock `timestamp` are impure and omitted. -/
structure vQbitClinicalClaim where
  measurement_type : String
  quantum_state : QuantumClinicalState
  amplitude : ℂ
  probability : ℝ
  phase : ℝ
  entanglement_list : List String
  collapse_policy : String
  uncertainty_hbar : ℝ

/-- `np.linalg.norm` of the first `dim` entries: the Euclidean norm. -/
def l2norm (v : ℕ → ℂ) (dim : ℕ) : ℝ :=
  Real.sqrt (∑ i ∈ Finset.range dim, Complex.normSq (v i))

/-- `norm = np.linalg.norm(v); if norm > 0: v = v / norm` — the shared
normalization step of `encode_clinical_case` and `evolve_quantum_state`. -/
def normalize_state (v : ℕ → ℂ) (dim : ℕ) : ℕ → ℂ :=
  if 0 < l2norm v dim then fun k => v k / ((l2norm v dim : ℝ) : ℂ) else v

/-- `for i, a in enumerate(amps): if i < cap: v[base + i] = a` starting at
enumeration index `i0`, the write pattern of `encode_clinical_case`. -/
def place_amps (base cap : ℕ) : ℕ → List ℂ → (ℕ → ℂ) → (ℕ → ℂ)
  | _, [], v => v
  | i, a :: rest, v =>
      place_amps base cap (i + 1) rest
        (if i < cap then Function.update v (base + i) a else v)

/-- Amplitude of the `i`-th symptom: magnitude `details.get('intensity', 0.5)`
and random phase (`intensity * exp(1j * phase)`). -/
def symptom_amp (ph : ℕ → ℝ) (p : ℕ × (String × Option ℚ)) : ℂ :=
  (((p.2.2.getD 0.5 : ℚ) : ℝ) : ℂ) * Complex.exp ((ph p.1 : ℝ) * Complex.I)

/-- The rough vital-sign normalization `min(1.0, max(0.0, (value - 50)/100))`. -/
def vital_norm (x : ℚ) : ℝ :=
  min 1 (max 0 (((x : ℝ) - 50) / 100))

/-- Amplitude of the `i`-th vital sign. -/
def sign_amp (ph : ℕ → ℝ) (p : ℕ × (String × ℚ)) : ℂ :=
  ((vital_norm p.2.2 : ℝ) : ℂ) * Complex.exp ((ph p.1 : ℝ) * Complex.I)

/-- The fixed differential-diagnosis catalog of `encode_clinical_case`. -/
def differentials : List String :=
  ["myocardial_infarction", "angina", "anxiety", "gastroesophageal_reflux",
   "pneumonia", "pulmonary_embolism", "aortic_dissection", "pericarditis"]

/-- Amplitude of the `i`-th catalog differential:
`0.1 * exp(1j * random_phase)`. -/
def diff_amp (ph : ℕ → ℝ) (i : ℕ) : ℂ :=
  ((0.1 : ℝ) : ℂ) * Complex.exp ((ph i : ℝ) * Complex.I)

/-- All symptom amplitudes in dict order. -/
def symptom_amps (d : ClinicalData) (ph : ℕ → ℝ) : List ℂ :=
  d.symptoms.enum.map (symptom_amp ph)

/-- All vital-sign amplitudes in dict order. -/
def sign_amps (d : ClinicalData) (ph : ℕ → ℝ) : List ℂ :=
  d.vital_signs.enum.map (sign_amp ph)

/-- All catalog-differential amplitudes. -/
def diff_amps (ph : ℕ → ℝ) : List ℂ :=
  differentials.enum.map (fun p => diff_amp ph p.1)

/-- The entanglement matrix written by `encode_clinical_case`: constant 0.3
between the index of each placed symptom and the index `dim/2 + j` of each
placed differential, symmetrically. -/
def entanglement_matrix_of (nSym nDiff dim : ℕ) : ℕ → ℕ → ℂ := fun a b =>
  if (a < nSym ∧ a < dim / 4 ∧ dim / 2 ≤ b ∧ b - dim / 2 < nDiff ∧
        b - dim / 2 < dim / 4) ∨
     (b < nSym ∧ b < dim / 4 ∧ dim / 2 ≤ a ∧ a - dim / 2 < nDiff ∧
        a - dim / 2 < dim / 4)
  then 0.3 else 0

/-- `encode_clinical_case`: symptoms are written to indices `[0, dim/4)`,
vital signs to `[dim/4, dim/4 + dim/4)`, catalog differentials to
`[dim/2, dim/2 + dim/4)`; the vector is then normalized unless its norm is
zero, and the decoherence rate is `min(0.5, complexity/20)`. -/
def encode_clinical_case (dim : ℕ) (phS phV phD : ℕ → ℝ) (d : ClinicalData) :
    QuantumClinicalCase :=
  let v1 := place_amps 0 (dim / 4) 0 (symptom_amps d phS) (fun _ => 0)
  let v2 := place_amps (dim / 4) (dim / 4) 0 (sign_amps d phV) v1
  let v3 := place_amps (dim / 2) (dim / 4) 0 (diff_amps phD) v2
  { case_id := d.case_id
    vqbit_dimension := dim
    quantum_state_vector := normalize_state v3 dim
    symptom_qbits :=
      (d.symptoms.enum.filter (fun p => p.1 < dim / 4)).map
        (fun p => (p.2.1, symptom_amp phS p))
    sign_qbits :=
      (d.vital_signs.enum.filter (fun p => p.1 < dim / 4)).map
        (fun p => (p.2.1, sign_amp phV p))
    differential_qbits :=
      (differentials.enum.filter (fun p => p.1 < dim / 4)).map
        (fun p => (p.2, diff_amp phD p.1))
    entanglement_matrix :=
      entanglement_matrix_of (min d.symptoms.length (dim / 4))
        (min differentials.length (dim / 4)) dim
    decoherence_rate :=
      min 0.5
        (((d.symptoms.length + d.vital_signs.length + differentials.length : ℕ) : ℝ) / 20) }

/-- Mean of the entry magnitudes (`np.abs(v)` then mean), used by `np.std`. -/
def amp_mean (v : ℕ → ℂ) (dim : ℕ) : ℝ :=
  (∑ i ∈ Finset.range dim, Complex.abs (v i)) / dim

/-- `np.std(np.abs(quantum_state))`: the population standard deviation of the
entry magnitudes. -/
def amp_std (v : ℕ → ℂ) (dim : ℕ) : ℝ :=
  Real.sqrt ((∑ i ∈ Finset.range dim, (Complex.abs (v i) - amp_mean v dim) ^ 2) / dim)

/-- `QuantumVirtueSupervisor.evaluate_virtue_compliance`, dispatching on the
supervisor's virtue type string. -/
def evaluate_virtue_compliance (virtue_type : String) (qsv : ℕ → ℂ) (dim : ℕ)
    (ctx : ClinicalContext) : ℝ :=
  if virtue_type = "honesty" then
    min 1 (amp_std qsv dim / 0.5)
  else if virtue_type = "prudence" then
    min 1 ctx.conservative_bias
  else if virtue_type = "justice" then
    (-(∑ i ∈ Finset.range dim,
        Complex.abs (qsv i) ^ 2 * Real.log (Complex.abs (qsv i) ^ 2 + 1e-10))) /
      Real.log dim
  else if virtue_type = "non_maleficence" then
    (if ctx.harm_indicators = [] then 1 else 0)
  else 0.5

/-- The fixed context built inside `apply_virtue_supervision`. -/
def default_clinical_context : ClinicalContext := ⟨0.8, []⟩

/-- `np.argmax` over the first `dim` entries: first index of the maximum. -/
def argmax_idx (p : ℕ → ℝ) : ℕ → ℕ
  | 0 => 0
  | n + 1 =>
      let b := argmax_idx p n
      if p n > p b then n else b

/-- `apply_virtue_supervision`: averages the four virtue scores, maps the mean
to a status by the 0.8/0.6 thresholds, and reads the dominant component. -/
def apply_virtue_supervision (qc : QuantumClinicalCase) : vQbitClinicalClaim :=
  let honesty_score := evaluate_virtue_compliance "honesty"
    qc.quantum_state_vector qc.vqbit_dimension default_clinical_context
  let prudence_score := evaluate_virtue_compliance "prudence"
    qc.quantum_state_vector qc.vqbit_dimension default_clinical_context
  let justice_score := evaluate_virtue_compliance "justice"
    qc.quantum_state_vector qc.vqbit_dimension default_clinical_context
  let non_maleficence_score := evaluate_virtue_compliance "non_maleficence"
    qc.quantum_state_vector qc.vqbit_dimension default_clinical_context
  let virtue_compliance :=
    (honesty_score + prudence_score + justice_score + non_maleficence_score) / 4
  let quantum_state :=
    if virtue_compliance > 0.8 then COLLAPSED
    else if virtue_compliance > 0.6 then MEASURED
    else SUPERPOSED
  let probs := fun i => Complex.abs (qc.quantum_state_vector i) ^ 2
  let max_prob_idx := argmax_idx probs qc.vqbit_dimension
  let amplitude := qc.quantum_state_vector max_prob_idx
  { measurement_type := "clinical_diagnosis"
    quantum_state := quantum_state
    amplitude := amplitude
    probability := probs max_prob_idx
    phase := Complex.arg amplitude
    entanglement_list := qc.symptom_qbits.map Prod.fst
    collapse_policy := "virtue_supervised"
    uncertainty_hbar :=
      Real.sqrt (∑ i ∈ Finset.range qc.vqbit_dimension,
        probs i * ((i : ℝ) - (max_prob_idx : ℝ)) ^ 2) }

/-- The evolved state before normalization (`evolve_quantum_state`):
`(I + time_step * 0.01 * (g1 + 1j*g2)) @ v` with injected perturbation draws
`g1`, `g2`. -/
def evolved_perturbed (g1 g2 : ℕ → ℕ → ℝ) (qc : QuantumClinicalCase) (t : ℝ) :
    ℕ → ℂ :=
  fun k => ∑ j ∈ Finset.range qc.vqbit_dimension,
    ((if k = j then (1 : ℂ) else 0) +
      ((t : ℝ) : ℂ) * (((0.01 : ℝ) : ℂ) * (((g1 k j : ℝ) : ℂ) + ((g2 k j : ℝ) : ℂ) * Complex.I))) *
      qc.quantum_state_vector j

/-- `evolve_quantum_state`: applies the perturbed evolution operator,
normalizes (when the norm is positive), then damps by
`exp(-decoherence_rate * time_step)` without re-normalizing. -/
def evolve_quantum_state (g1 g2 : ℕ → ℕ → ℝ) (qc : QuantumClinicalCase) (t : ℝ) :
    QuantumClinicalCase :=
  let new_state := normalize_state (evolved_perturbed g1 g2 qc t) qc.vqbit_dimension
  let decoherence_factor := Real.exp (-qc.decoherence_rate * t)
  { qc with quantum_state_vector := fun k => ((decoherence_factor : ℝ) : ℂ) * new_state k }

end

open QuantumClinicalState

/-! ### Engine lemmas -/

theorem l2norm_nonneg (v : ℕ → ℂ) (dim : ℕ) : 0 ≤ l2norm v dim :=
  Real.sqrt_nonneg _

theorem l2norm_pos_of_entry (v : ℕ → ℂ) (dim k : ℕ) (hk : k < dim) (hv : v k ≠ 0) :
    0 < l2norm v dim := by
  unfold l2norm
  apply Real.sqrt_pos.mpr
  have h1 : Complex.normSq (v k) ≤ ∑ i ∈ Finset.range dim, Complex.normSq (v i) :=
    Finset.single_le_sum (f := fun i => Complex.normSq (v i))
      (fun i _ => Complex.normSq_nonneg (v i)) (Finset.mem_range.mpr hk)
  have h2 : 0 < Complex.normSq (v k) := Complex.normSq_pos.mpr hv
  linarith

theorem l2norm_smul (c : ℝ) (v : ℕ → ℂ) (dim : ℕ) :
    l2norm (fun k => ((c : ℝ) : ℂ) * v k) dim = |c| * l2norm v dim := by
  unfold l2norm
  have h : ∀ i ∈ Finset.range dim,
      Complex.normSq (((c : ℝ) : ℂ) * v i) = c * c * Complex.normSq (v i) := by
    intro i _
    rw [Complex.normSq_mul, Complex.normSq_ofReal]
  rw [Finset.sum_congr rfl h, ← Finset.mul_sum,
    Real.sqrt_mul (mul_self_nonneg c), Real.sqrt_mul_self_eq_abs]

theorem normalize_state_norm (v : ℕ → ℂ) (dim : ℕ) (h : 0 < l2norm v dim) :
    l2norm (normalize_state v dim) dim = 1 := by
  unfold normalize_state
  rw [if_pos h]
  have heq : (fun k => v k / ((l2norm v dim : ℝ) : ℂ)) =
      fun k => ((((l2norm v dim)⁻¹ : ℝ) : ℝ) : ℂ) * v k := by
    funext k
    rw [Complex.ofReal_inv, div_eq_mul_inv, mul_comm]
  rw [heq, l2norm_smul, abs_of_pos (inv_pos.mpr h)]
  exact inv_mul_cancel₀ (ne_of_gt h)

theorem place_amps_eq_of_lt (base cap k : ℕ) (amps : List ℂ) :
    ∀ (i : ℕ) (v : ℕ → ℂ), k < base + i → place_amps base cap i amps v k = v k := by
  induction amps with
  | nil => intro i v _; rfl
  | cons a rest ih =>
      intro i v hk
      show place_amps base cap (i + 1) rest
        (if i < cap then Function.update v (base + i) a else v) k = v k
      rw [ih (i + 1) _ (by omega)]
      split_ifs
      · have hne : k ≠ base + i := by omega
        exact Function.update_noteq hne a v
      · rfl

theorem place_amps_head (base cap : ℕ) (a : ℂ) (rest : List ℂ) (v : ℕ → ℂ)
    (hcap : 0 < cap) :
    place_amps base cap 0 (a :: rest) v base = a := by
  show place_amps base cap 1 rest
    (if 0 < cap then Function.update v (base + 0) a else v) base = a
  rw [place_amps_eq_of_lt base cap base rest 1 _ (by omega), if_pos hcap]
  simp

/-- With the catalog differential of weight 0.1 always written at index
`dim/2` once `4 ≤ dim`, every encoded state normalizes to unit norm. -/
theorem encode_unit_norm (dim : ℕ) (phS phV phD : ℕ → ℝ) (d : ClinicalData)
    (hdim : 4 ≤ dim) :
    l2norm ((encode_clinical_case dim phS phV phD d).quantum_state_vector) dim = 1 := by
  set v2 := place_amps (dim / 4) (dim / 4) 0 (sign_amps d phV)
      (place_amps 0 (dim / 4) 0 (symptom_amps d phS) (fun _ => 0)) with hv2
  have hq : (encode_clinical_case dim phS phV phD d).quantum_state_vector =
      normalize_state (place_amps (dim / 2) (dim / 4) 0 (diff_amps phD) v2) dim := rfl
  have hcap : 0 < dim / 4 := by omega
  obtain ⟨rest, hrest⟩ : ∃ rest, diff_amps phD = diff_amp phD 0 :: rest := ⟨_, rfl⟩
  have hval : place_amps (dim / 2) (dim / 4) 0 (diff_amps phD) v2 (dim / 2) =
      diff_amp phD 0 := by
    rw [hrest]
    exact place_amps_head _ _ _ _ _ hcap
  have hne : place_amps (dim / 2) (dim / 4) 0 (diff_amps phD) v2 (dim / 2) ≠ 0 := by
    rw [hval]
    unfold diff_amp
    exact mul_ne_zero (Complex.ofReal_ne_zero.mpr (by norm_num)) (Complex.exp_ne_zero _)
  have hpos : 0 < l2norm (place_amps (dim / 2) (dim / 4) 0 (diff_amps phD) v2) dim :=
    l2norm_pos_of_entry _ dim (dim / 2) (by omega) hne
  rw [hq]
  exact normalize_state_norm _ dim hpos

/-! ### Concrete inputs used by the engine claims -/

noncomputable section

/-- A deterministic (all-zero) draw for the injectable phase sources. -/
def zero_phases : ℕ → ℝ := fun _ => 0

/-- The zero state vector. -/
def zero_vec : ℕ → ℂ := fun _ => 0

/-- The first standard basis vector, a unit-norm state concentrated at 0. -/
def basis_vec : ℕ → ℂ := fun k => if k = 0 then 1 else 0

/-- A context whose caller-supplied conservative bias is negative. -/
def neg_bias_context : ClinicalContext := ⟨-1, []⟩

/-- A one-dimensional case with state vector (1), zero decoherence rate. -/
def unit_case : QuantumClinicalCase :=
  ⟨"case", 1, fun _ => 1, [], [], [], fun _ _ => 0, 0⟩

/-- A perturbation draw with every entry -100, so that
`1 + t*0.01*(-100) = 0` at `t = 1`. -/
def neg_perturbation : ℕ → ℕ → ℝ := fun _ _ => -100

/-- The all-zero perturbation draw. -/
def zero_perturbation : ℕ → ℕ → ℝ := fun _ _ => 0

end

/-! ### Claims C2, C3, C6, C7, C9 -/

/-- C2: for every input record whose encoding receives at least one non-zero
weight — which the fixed differential catalog guarantees as soon as the
dimension admits a differential slot (4 ≤ dim; the default is 1024) — the
state vector returned by `encode_clinical_case` has Euclidean norm exactly 1
(hence within 1e-9 of 1). -/
theorem c2_encoded_state_unit_norm (dim : ℕ) (phS phV phD : ℕ → ℝ)
    (d : ClinicalData) (hdim : 4 ≤ dim) :
    l2norm ((encode_clinical_case dim phS phV phD d).quantum_state_vector) dim = 1 :=
  encode_unit_norm dim phS phV phD d hdim

/-- Witness for C2 at dimension 8, zero phase draws, and the empty record. -/
theorem c2_encoded_state_unit_norm_witness :
    4 ≤ 8 ∧
    l2norm ((encode_clinical_case 8 zero_phases zero_phases zero_phases
      empty_clinical_data).quantum_state_vector) 8 = 1 :=
  ⟨by norm_num,
   c2_encoded_state_unit_norm 8 zero_phases zero_phases zero_phases
     empty_clinical_data (by norm_num)⟩

/-- C3: `apply_virtue_supervision` sets the claim status from the arithmetic
mean of the four virtue scores on the case's state vector and the fixed
context: COLLAPSED above 0.8, MEASURED above 0.6, else SUPERPOSED. -/
theorem c3_virtue_aggregation (qc : QuantumClinicalCase) :
    (apply_virtue_supervision qc).quantum_state =
      (if (evaluate_virtue_compliance "honesty" qc.quantum_state_vector
            qc.vqbit_dimension default_clinical_context +
          evaluate_virtue_compliance "prudence" qc.quantum_state_vector
            qc.vqbit_dimension default_clinical_context +
          evaluate_virtue_compliance "justice" qc.quantum_state_vector
            qc.vqbit_dimension default_clinical_context +
          evaluate_virtue_compliance "non_maleficence" qc.quantum_state_vector
            qc.vqbit_dimension default_clinical_context) / 4 > 0.8 then
        COLLAPSED
      else if (evaluate_virtue_compliance "honesty" qc.quantum_state_vector
            qc.vqbit_dimension default_clinical_context +
          evaluate_virtue_compliance "prudence" qc.quantum_state_vector
            qc.vqbit_dimension default_clinical_context +
          evaluate_virtue_compliance "justice" qc.quantum_state_vector
            qc.vqbit_dimension default_clinical_context +
          evaluate_virtue_compliance "non_maleficence" qc.quantum_state_vector
            qc.vqbit_dimension default_clinical_context) / 4 > 0.6 then
        MEASURED
      else SUPERPOSED) := rfl

/-- Counterexample to C6 as stated: the differential catalog is hardcoded, so
the empty record (zero symptoms, zero signs) does NOT encode to a zero-norm
vector — at dimension 8 with zero phase draws its norm is not 0. -/
theorem c6_empty_record_counterexample :
    l2norm ((encode_clinical_case 8 zero_phases zero_phases zero_phases
      empty_clinical_data).quantum_state_vector) 8 ≠ 0 := by
  rw [encode_unit_norm 8 zero_phases zero_phases zero_phases empty_clinical_data
    (by norm_num)]
  exact one_ne_zero

/-- C6 (amended): a record with zero symptoms and zero signs still encodes to
a unit-norm state, because the fixed differential catalog always contributes
non-zero weight (whenever 4 ≤ dim); and every validator track verdict for
that record is NOT_READY with at least one gap. -/
theorem c6_empty_record_amended (dim : ℕ) (phS phV phD : ℕ → ℝ) (hdim : 4 ≤ dim) :
    l2norm ((encode_clinical_case dim phS phV phD
      empty_clinical_data).quantum_state_vector) dim = 1 ∧
    ∀ t : ValidationTrack,
      (validate_track empty_clinical_data t).result = NOT_READY ∧
      (validate_track empty_clinical_data t).gaps ≠ [] := by
  refine ⟨encode_unit_norm dim phS phV phD empty_clinical_data hdim, fun t => ?_⟩
  cases t <;>
    refine ⟨mk_track_result_zero_not_ready _ _ _ _ _ ?_, ?_⟩ <;>
    simp [validate_track, validate_medication_safety, validate_triage_assessment,
      validate_next_diagnostic_step, validate_imaging_readiness, validate_audio_readiness,
      validate_laboratory_analysis, validate_vital_signs_monitoring, mk_track_result,
      empty_clinical_data, hasKeyQ, required_vitals, List.lookup, missing_vital_gaps]

/-- Witness for C6 (amended) at dimension 8 and zero phase draws. -/
theorem c6_empty_record_amended_witness :
    4 ≤ 8 ∧
    (l2norm ((encode_clinical_case 8 zero_phases zero_phases zero_phases
      empty_clinical_data).quantum_state_vector) 8 = 1 ∧
    ∀ t : ValidationTrack,
      (validate_track empty_clinical_data t).result = NOT_READY ∧
      (validate_track empty_clinical_data t).gaps ≠ []) :=
  ⟨by norm_num, c6_empty_record_amended 8 zero_phases zero_phases zero_phases (by norm_num)⟩

/-- Counterexample to C7 as stated: the prudence scorer returns the
caller-supplied bias capped only from above, so a negative bias yields a
negative score; and the justice scorer is negative even on the unit basis
state, since its probability 1 entry contributes `-log(1 + 1e-10) < 0`. -/
theorem c7_virtue_range_counterexample :
    evaluate_virtue_compliance "prudence" zero_vec 1 neg_bias_context < 0 ∧
    evaluate_virtue_compliance "justice" basis_vec 2 default_clinical_context < 0 := by
  constructor
  · have h : evaluate_virtue_compliance "prudence" zero_vec 1 neg_bias_context =
        min 1 (-1 : ℝ) := rfl
    rw [h]
    norm_num
  · have h : evaluate_virtue_compliance "justice" basis_vec 2 default_clinical_context =
        (-(∑ i ∈ Finset.range 2,
            Complex.abs (basis_vec i) ^ 2 *
              Real.log (Complex.abs (basis_vec i) ^ 2 + 1e-10))) /
          Real.log (2 : ℕ) := rfl
    rw [h, Finset.sum_range_succ, Finset.sum_range_one]
    have hb0 : basis_vec 0 = 1 := rfl
    have hb1 : basis_vec 1 = 0 := rfl
    rw [hb0, hb1]
    simp only [map_one, map_zero, one_pow, one_mul, ne_eq, OfNat.ofNat_ne_zero,
      not_false_eq_true, zero_pow, zero_mul, add_zero, zero_add]
    apply div_neg_of_neg_of_pos
    · have hlog : 0 < Real.log (1 + 1e-10) := Real.log_pos (by norm_num)
      linarith
    · rw [Nat.cast_ofNat]
      exact Real.log_pos one_lt_two

/-- C7 (amended): honesty and non-maleficence always score in [0,1]; prudence
never exceeds 1 and lies in [0,1] whenever the context's conservative bias is
non-negative; the justice score carries no [0,1] guarantee.  (The scorers are
pure functions of the state in this embedding, so none mutates it.) -/
theorem c7_virtue_ranges_amended (qsv : ℕ → ℂ) (dim : ℕ) (ctx : ClinicalContext) :
    (0 ≤ evaluate_virtue_compliance "honesty" qsv dim ctx ∧
      evaluate_virtue_compliance "honesty" qsv dim ctx ≤ 1) ∧
    (0 ≤ evaluate_virtue_compliance "non_maleficence" qsv dim ctx ∧
      evaluate_virtue_compliance "non_maleficence" qsv dim ctx ≤ 1) ∧
    evaluate_virtue_compliance "prudence" qsv dim ctx ≤ 1 ∧
    (0 ≤ ctx.conservative_bias →
      0 ≤ evaluate_virtue_compliance "prudence" qsv dim ctx) := by
  have hhon : evaluate_virtue_compliance "honesty" qsv dim ctx =
      min 1 (amp_std qsv dim / 0.5) := rfl
  have hnm : evaluate_virtue_compliance "non_maleficence" qsv dim ctx =
      (if ctx.harm_indicators = [] then 1 else 0) := rfl
  have hpru : evaluate_virtue_compliance "prudence" qsv dim ctx =
      min 1 ctx.conservative_bias := rfl
  refine ⟨⟨?_, ?_⟩, ⟨?_, ?_⟩, ?_, fun hb => ?_⟩
  · rw [hhon]
    have hstd : 0 ≤ amp_std qsv dim := Real.sqrt_nonneg _
    have : 0 ≤ amp_std qsv dim / 0.5 := by positivity
    exact le_min (by norm_num) this
  · rw [hhon]
    exact min_le_left _ _
  · rw [hnm]
    split_ifs <;> norm_num
  · rw [hnm]
    split_ifs <;> norm_num
  · rw [hpru]
    exact min_le_left _ _
  · rw [hpru]
    exact le_min (by norm_num) hb

/-- Witness for C7 (amended) on a concrete state and the engine's default
context, whose conservative bias 0.8 is non-negative. -/
theorem c7_virtue_ranges_amended_witness :
    0 ≤ default_clinical_context.conservative_bias ∧
    0 ≤ evaluate_virtue_compliance "prudence" zero_vec 4 default_clinical_context := by
  have hb : (0 : ℝ) ≤ default_clinical_context.conservative_bias := by
    norm_num [default_clinical_context]
  exact ⟨hb, (c7_virtue_ranges_amended zero_vec 4 default_clinical_context).2.2.2 hb⟩

/-- Counterexample to C9 as stated: the injected perturbation draw can
annihilate the state — on the one-dimensional unit case (non-zero state
vector, time step 1 ≥ 0), a draw of -100 makes the evolution operator
`1 + 1*0.01*(-100) = 0`, so the pre-decoherence "normalized" vector has norm
0, not 1. -/
theorem c9_evolution_counterexample :
    unit_case.quantum_state_vector 0 ≠ 0 ∧
    l2norm (normalize_state
      (evolved_perturbed neg_perturbation zero_perturbation unit_case 1) 1) 1 = 0 ∧
    l2norm (normalize_state
      (evolved_perturbed neg_perturbation zero_perturbation unit_case 1) 1) 1 ≠ 1 := by
  have hw0 : evolved_perturbed neg_perturbation zero_perturbation unit_case 1 0 = 0 := by
    unfold evolved_perturbed unit_case neg_perturbation zero_perturbation
    rw [Finset.sum_range_one]
    norm_num
  have hnorm0 : l2norm
      (evolved_perturbed neg_perturbation zero_perturbation unit_case 1) 1 = 0 := by
    unfold l2norm
    rw [Finset.sum_range_one, hw0]
    simp
  have hns : normalize_state
      (evolved_perturbed neg_perturbation zero_perturbation unit_case 1) 1 =
      evolved_perturbed neg_perturbation zero_perturbation unit_case 1 := by
    unfold normalize_state
    rw [if_neg]
    rw [hnorm0]
    exact lt_irrefl 0
  refine ⟨one_ne_zero, ?_, ?_⟩
  · rw [hns, hnorm0]
  · rw [hns, hnorm0]
    exact zero_ne_one

/-- C9 (amended): for every case, perturbation draw, and time step ≥ 0 (with
the non-negative decoherence rate of the data model), if the perturbed
pre-normalization vector is non-zero then its normalization has Euclidean
norm exactly 1; and the final state after decoherence damping always has norm
at most 1. -/
theorem c9_evolution_norms_amended (g1 g2 : ℕ → ℕ → ℝ) (qc : QuantumClinicalCase)
    (t : ℝ) (hrate : 0 ≤ qc.decoherence_rate) (ht : 0 ≤ t) :
    (0 < l2norm (evolved_perturbed g1 g2 qc t) qc.vqbit_dimension →
      l2norm (normalize_state (evolved_perturbed g1 g2 qc t) qc.vqbit_dimension)
        qc.vqbit_dimension = 1) ∧
    l2norm ((evolve_quantum_state g1 g2 qc t).quantum_state_vector)
      qc.vqbit_dimension ≤ 1 := by
  constructor
  · exact fun h => normalize_state_norm _ _ h
  · have hvec : (evolve_quantum_state g1 g2 qc t).quantum_state_vector =
        fun k => ((Real.exp (-qc.decoherence_rate * t) : ℝ) : ℂ) *
          normalize_state (evolved_perturbed g1 g2 qc t) qc.vqbit_dimension k := rfl
    rw [hvec, l2norm_smul,
      abs_of_pos (Real.exp_pos (-qc.decoherence_rate * t))]
    have hexp : Real.exp (-qc.decoherence_rate * t) ≤ 1 := by
      rw [Real.exp_le_one_iff]
      have := mul_nonneg hrate ht
      linarith
    by_cases hpos : 0 < l2norm (evolved_perturbed g1 g2 qc t) qc.vqbit_dimension
    · rw [normalize_state_norm _ _ hpos, mul_one]
      exact hexp
    · have h0 : l2norm (evolved_perturbed g1 g2 qc t) qc.vqbit_dimension = 0 :=
        le_antisymm (not_lt.mp hpos) (l2norm_nonneg _ _)
      have hsame : normalize_state (evolved_perturbed g1 g2 qc t) qc.vqbit_dimension =
          evolved_perturbed g1 g2 qc t := by
        unfold normalize_state
        rw [if_neg hpos]
      rw [hsame, h0, mul_zero]
      exact zero_le_one

/-- Witness for C9 (amended): the one-dimensional unit case with zero
perturbation draws and time step 0, whose perturbed vector has norm 1 > 0. -/
theorem c9_evolution_norms_amended_witness :
    0 ≤ unit_case.decoherence_rate ∧ (0 : ℝ) ≤ 0 ∧
    0 < l2norm (evolved_perturbed zero_perturbation zero_perturbation unit_case 0) 1 ∧
    l2norm (normalize_state
      (evolved_perturbed zero_perturbation zero_perturbation unit_case 0) 1) 1 = 1 ∧
    l2norm ((evolve_quantum_state zero_perturbation zero_perturbation
      unit_case 0).quantum_state_vector) 1 ≤ 1 := by
  have hrate : (0 : ℝ) ≤ unit_case.decoherence_rate := le_refl 0
  have hw0 : evolved_perturbed zero_perturbation zero_perturbation unit_case 0 0 = 1 := by
    unfold evolved_perturbed unit_case zero_perturbation
    rw [Finset.sum_range_one]
    norm_num
  have hpos : 0 < l2norm
      (evolved_perturbed zero_perturbation zero_perturbation unit_case 0) 1 :=
    l2norm_pos_of_entry _ 1 0 (by norm_num) (by rw [hw0]; exact one_ne_zero)
  have hmain := c9_evolution_norms_amended zero_perturbation zero_perturbation
    unit_case 0 hrate (le_refl 0)
  exact ⟨hrate, le_refl 0, hpos, hmain.1 hpos, hmain.2⟩

end FoTClinical
